import Mathlib

/-!
Verification of the chrocog hardware modules against their specification.

The development shallowly embeds the three hardware-facing C modules
(`i2s_bridge.cpp`, `hybrid_node.cpp`, `phi_sensor.cpp`).  Machine floats are
modelled as follows: values that the code only moves bit-for-bit (the I2S
metric slots) are represented by their 32-bit patterns as naturals; values the
code computes with (`hybrid_node.cpp` signal path) are modelled as real
numbers, except the preamp gain, which only ever meets rational arithmetic and
is modelled as a rational so that its comparisons are decidable.  The portable
(non-TEENSY, non-RASPBERRY_PI) compilation of each file is the one embedded:
conditionally compiled thermal-sensor and timer code is absent from that
build, which the comments note where it matters.

The file is organized with all definitions first, followed by the lemmas and
the theorems about the specification's claims.
-/

namespace Chrocog

/-! ## I2S bridge codec (`src/hardware/i2s_bridge.cpp`)

A frame is modelled as a total map from slot index to the 32-bit word stored
there; float-typed metric fields carry the 32-bit pattern of the float, since
`encode_metrics_to_frame` / `decode_metrics_from_frame` reinterpret bits
through a union and never do numeric conversion. -/

def I2S_CHANNELS : ℕ := 8

def I2S_BUFFER_SIZE : ℕ := 512

structure ConsciousnessMetrics where
  phi_phase : ℕ
  phi_depth : ℕ
  coherence : ℕ
  criticality : ℕ
  ici : ℕ
  timestamp_us : ℕ
  sequence : ℕ
deriving DecidableEq

/-- The value placed in the 4th auxiliary slot: criticality on an even
sequence number, inter-event interval on an odd one. -/
def extra_slot (m : ConsciousnessMetrics) : ℕ :=
  if m.sequence % 2 = 0 then m.criticality else m.ici

/-- One iteration of the interleaving loop: write the four metric words into
channels 4..7 of sample `i`. -/
def write_metric_slots (m : ConsciousnessMetrics) (i : ℕ) (f : ℕ → ℕ) : ℕ → ℕ :=
  fun idx =>
    if idx = i * I2S_CHANNELS + 4 then m.phi_phase
    else if idx = i * I2S_CHANNELS + 5 then m.phi_depth
    else if idx = i * I2S_CHANNELS + 6 then m.coherence
    else if idx = i * I2S_CHANNELS + 7 then extra_slot m
    else f idx

/-- The loop `for i in 0..n-1` of `encode_metrics_to_frame`. -/
def encode_loop (m : ConsciousnessMetrics) : ℕ → (ℕ → ℕ) → (ℕ → ℕ)
  | 0, f => f
  | n + 1, f => write_metric_slots m n (encode_loop m n f)

/-- Embeds `encode_metrics_to_frame` from `i2s_bridge.cpp`. -/
def encode_metrics_to_frame (frame : ℕ → ℕ) (m : ConsciousnessMetrics) : ℕ → ℕ :=
  encode_loop m I2S_BUFFER_SIZE frame

/-- Embeds `decode_metrics_from_frame` from `i2s_bridge.cpp`: reads the first
sample's channels 4..7 and assigns the 4th slot by the parity of the
sequence number already present in the caller's metrics structure. -/
def decode_metrics_from_frame (frame : ℕ → ℕ) (m : ConsciousnessMetrics) :
    ConsciousnessMetrics :=
  { m with
    phi_phase := frame 4
    phi_depth := frame 5
    coherence := frame 6
    criticality := if m.sequence % 2 = 0 then frame 7 else m.criticality
    ici := if m.sequence % 2 = 0 then m.ici else frame 7 }

/-- A concrete metrics record used to witness the round-trip theorem. -/
def metricsEx : ConsciousnessMetrics :=
  { phi_phase := 0x40490FDB, phi_depth := 0x3F000000, coherence := 0x3F733333
    criticality := 0x3F800000, ici := 0x42C80000, timestamp_us := 0, sequence := 0 }

/-- Receiver-side metrics structure carrying the matching sequence number. -/
def metricsEx0 : ConsciousnessMetrics :=
  { phi_phase := 0, phi_depth := 0, coherence := 0
    criticality := 0, ici := 0, timestamp_us := 0, sequence := 0 }

/-! ## Hybrid analog-DSP node (`src/hardware/hybrid_node.cpp`)

Data model mirroring `hybrid_node.h`.  Float-valued signal quantities are
modelled as real numbers; the preamp gain, which the code only compares and
scales by 0.9, is a rational.  Fixed-size C arrays are modelled as total maps
from the index.  The portable build is embedded: the `#ifdef TEENSY` thermal
branch of `safety_check` and the microsecond timers are absent from it. -/

inductive HybridNodeMode where
  | analog_only | dsp_only | hybrid | calibration
deriving DecidableEq

inductive HybridSafetyStatus where
  | ok | voltage_clamp | temp_warning | temp_critical | adc_overload | fault
deriving DecidableEq

def HYBRID_FFT_SIZE : ℕ := 1024

noncomputable def SAFETY_VOLTAGE_MAX : ℝ := 5

noncomputable def SAFETY_VOLTAGE_MIN : ℝ := 0

noncomputable def SAFETY_OVERLOAD_THRESH : ℝ := 0.95

def ANALOG_PREAMP_GAIN_MIN : ℚ := 1

def ANALOG_PREAMP_GAIN_MAX : ℚ := 40

structure HybridNodeConfig where
  interface_type : ℕ
  sample_rate : ℕ
  buffer_size : ℕ
  adc_channels : ℕ
  dac_channels : ℕ
  preamp_gain : ℚ
  hpf_cutoff : ℝ
  lpf_cutoff : ℝ
  enable_analog_filter : Bool
  fft_size : ℕ
  enable_dsp : Bool
  enable_coherence : Bool
  enable_ici : Bool
  enable_modulation : Bool
  modulation_depth : ℝ
  control_loop_rate : ℝ
  enable_voltage_clamp : Bool
  enable_thermal_monitor : Bool
  voltage_max : ℝ
  thermal_gpio_pin : ℕ
  mode : HybridNodeMode
  enable_logging : Bool

structure AnalogMetrics where
  rms_level : ℝ
  peak_level : ℝ
  dc_offset : ℝ
  thd : ℝ
  snr_db : ℝ
  is_overloaded : Bool

structure DSPMetrics where
  ici : ℝ
  coherence : ℝ
  criticality : ℝ
  spectral_centroid : ℝ
  spectral_flux : ℝ
  zero_crossing_rate : ℝ
  timestamp_us : ℕ

structure ControlVoltage where
  cv1 : ℝ
  cv2 : ℝ
  phi_phase : ℝ
  phi_depth : ℝ

structure SafetyTelemetry where
  status : HybridSafetyStatus
  temperature : ℝ
  voltage_out : ℕ → ℝ
  overload_count : ℕ
  clamp_count : ℕ
  thermal_warning : Bool

structure CalibrationData where
  adc_gain : ℕ → ℝ
  adc_offset : ℕ → ℝ
  dac_gain : ℕ → ℝ
  dac_offset : ℕ → ℝ
  adc_latency_us : ℕ
  dsp_latency_us : ℕ
  dac_latency_us : ℕ
  total_latency_us : ℕ
  calibration_timestamp : ℕ
  is_calibrated : Bool

structure NodeStatistics where
  frames_processed : ℕ
  frames_dropped : ℕ
  cpu_load : ℝ
  buffer_utilization : ℝ
  uptime_ms : ℕ
  drift_ppm : ℝ
  modulation_fidelity : ℝ

structure HybridNodeStatus where
  mode : HybridNodeMode
  is_running : Bool
  is_calibrated : Bool
  analog : AnalogMetrics
  dsp : DSPMetrics
  control : ControlVoltage
  safety : SafetyTelemetry
  calibration : CalibrationData
  stats : NodeStatistics

/-- The module's global state: configuration, status and the static DSP /
filter scratch state that persists across cycles. -/
structure HybridNodeState where
  config : HybridNodeConfig
  status : HybridNodeStatus
  initialized : Bool
  running : Bool
  prev_spectral_centroid : ℝ
  ici_buffer : ℕ → ℝ
  ici_index : ℕ
  hpf_state : ℕ → ℝ
  lpf_state : ℕ → ℝ
  dac_buffer : ℕ → ℝ

/-! ## Phi sensor (`src/hardware/phi_sensor.cpp`)

Only the globals `phi_sensor_read` touches are modelled: the running flag,
the `g_data_ready` flag and the latest sample `g_current_data`.  The flag is
set by the TEENSY-only sample-timer interrupt when a new sample lands, so
`data_ready = true` models a sample having arrived since the last successful
read. -/

structure PhiSensorData where
  raw_adc : ℕ → ℕ
  voltage : ℕ → ℝ
  normalized : ℕ → ℝ
  timestamp_us : ℕ
  sample_number : ℕ

structure PhiSensorState where
  running : Bool
  data_ready : Bool
  current_data : PhiSensorData

/-- Embeds `phi_sensor_read` (with a non-null `data` pointer): fails while
stopped or with no pending sample, leaving the caller's structure `data`
untouched; otherwise copies the pending sample out and clears
`g_data_ready`. -/
def phi_sensor_read (s : PhiSensorState) (data : PhiSensorData) :
    PhiSensorState × PhiSensorData × Bool :=
  if s.running = false then (s, data, false)
  else if s.data_ready = false then (s, data, false)
  else ({ s with data_ready := false }, s.current_data, true)

/-! ## Hybrid node operations -/

noncomputable section
open Classical

/-- The all-zero configuration: value of the static `g_config` at program
load, before `hybrid_node_init` overwrites it. -/
def zeroConfig : HybridNodeConfig :=
  { interface_type := 0, sample_rate := 0, buffer_size := 0, adc_channels := 0
    dac_channels := 0, preamp_gain := 0, hpf_cutoff := 0, lpf_cutoff := 0
    enable_analog_filter := false, fft_size := 0, enable_dsp := false
    enable_coherence := false, enable_ici := false, enable_modulation := false
    modulation_depth := 0, control_loop_rate := 0, enable_voltage_clamp := false
    enable_thermal_monitor := false, voltage_max := 0, thermal_gpio_pin := 0
    mode := HybridNodeMode.analog_only, enable_logging := false }

/-- The all-zero status, as produced by `memset(&g_status, 0, ...)`. -/
def zeroStatus : HybridNodeStatus :=
  { mode := HybridNodeMode.analog_only, is_running := false, is_calibrated := false
    analog := { rms_level := 0, peak_level := 0, dc_offset := 0, thd := 0
                snr_db := 0, is_overloaded := false }
    dsp := { ici := 0, coherence := 0, criticality := 0, spectral_centroid := 0
             spectral_flux := 0, zero_crossing_rate := 0, timestamp_us := 0 }
    control := { cv1 := 0, cv2 := 0, phi_phase := 0, phi_depth := 0 }
    safety := { status := HybridSafetyStatus.ok, temperature := 0
                voltage_out := fun _ => 0, overload_count := 0, clamp_count := 0
                thermal_warning := false }
    calibration := { adc_gain := fun _ => 0, adc_offset := fun _ => 0
                     dac_gain := fun _ => 0, dac_offset := fun _ => 0
                     adc_latency_us := 0, dsp_latency_us := 0, dac_latency_us := 0
                     total_latency_us := 0, calibration_timestamp := 0
                     is_calibrated := false }
    stats := { frames_processed := 0, frames_dropped := 0, cpu_load := 0
               buffer_utilization := 0, uptime_ms := 0, drift_ppm := 0
               modulation_fidelity := 0 } }

/-- Program-load state of the module: every static is zero-initialized. -/
def initialNodeState : HybridNodeState :=
  { config := zeroConfig, status := zeroStatus, initialized := false
    running := false, prev_spectral_centroid := 0, ici_buffer := fun _ => 0
    ici_index := 0, hpf_state := fun _ => 0, lpf_state := fun _ => 0
    dac_buffer := fun _ => 0 }

/-- Embeds `hybrid_node_init` (portable build: the platform ADC/DAC init
stubs return true, and GPIO setup is compiled out). -/
def hybrid_node_init (s : HybridNodeState) (cfg : HybridNodeConfig) :
    HybridNodeState × Bool :=
  let st := { zeroStatus with
    mode := cfg.mode, is_running := false, is_calibrated := false
    calibration := { zeroStatus.calibration with
      adc_gain := fun _ => 1, adc_offset := fun _ => 0
      dac_gain := fun _ => 1, dac_offset := fun _ => 0 }
    safety := { zeroStatus.safety with
      status := HybridSafetyStatus.ok, temperature := 25 } }
  ({ s with config := cfg, status := st, initialized := true }, true)

/-- Embeds `hybrid_node_start`. -/
def hybrid_node_start (s : HybridNodeState) : HybridNodeState × Bool :=
  if s.initialized = false ∨ s.running = true then (s, false)
  else
    ({ s with
        status.stats.frames_processed := 0
        status.stats.frames_dropped := 0
        status.stats.uptime_ms := 0
        status.is_running := true
        running := true }, true)

/-- Embeds `hybrid_node_stop`: the DAC buffer is cleared and written out
through the platform stub (which discards it). -/
def hybrid_node_stop (s : HybridNodeState) : HybridNodeState × Bool :=
  if s.running = false then (s, false)
  else
    ({ s with running := false, status.is_running := false
              dac_buffer := fun _ => 0 }, true)

/-- Embeds `hybrid_node_emergency_shutdown`: stop, mark Fault, zero the DAC
buffer and both control voltages; unconditionally returns true. -/
def hybrid_node_emergency_shutdown (s : HybridNodeState) :
    HybridNodeState × Bool :=
  let s1 := (hybrid_node_stop s).1
  ({ s1 with
      status.safety.status := HybridSafetyStatus.fault
      dac_buffer := fun _ => 0
      status.control.cv1 := 0
      status.control.cv2 := 0 }, true)

/-- Embeds `hybrid_node_set_preamp_gain`. -/
def hybrid_node_set_preamp_gain (s : HybridNodeState) (gain : ℚ) :
    HybridNodeState × Bool :=
  if gain < ANALOG_PREAMP_GAIN_MIN ∨ gain > ANALOG_PREAMP_GAIN_MAX then (s, false)
  else ({ s with config.preamp_gain := gain }, true)

/-- Embeds `hybrid_node_calibrate` in the portable build: `platform_adc_read`
yields silence, so every measured channel mean is 0 and the computed ADC
offsets are `-(0) = 0`; the loopback latency is the non-TEENSY estimate of
2000 us split into thirds by integer division; `now` stands for the external
`time(NULL)` reading.  The caller's structure `cal0` is returned unmodified
on failure. -/
def hybrid_node_calibrate (s : HybridNodeState) (cal0 : CalibrationData)
    (now : ℕ) : HybridNodeState × CalibrationData × Bool :=
  if s.running = true then (s, cal0, false)
  else
    let cal : CalibrationData :=
      { cal0 with
        adc_offset := fun _ => -(0 / (10 : ℝ))
        dac_gain := fun _ => 1, dac_offset := fun _ => 0
        total_latency_us := 2000
        adc_latency_us := 2000 / 3, dsp_latency_us := 2000 / 3
        dac_latency_us := 2000 / 3
        calibration_timestamp := now, is_calibrated := true }
    ({ s with status.calibration := cal, status.is_calibrated := true }, cal, true)

/-- Embeds `safety_check` in the portable build.  The thermal block
(temperature read, ThermalCritical / ThermalWarning transitions) is compiled
only for the TEENSY target and is absent here.  Overload increments the
counter and, when the gain is above the floor, scales it by 0.9; it does not
touch the safety status.  The voltage-clamp check is the only place the
status is written. -/
def safety_check (s : HybridNodeState) : HybridNodeState :=
  let s1 :=
    if s.status.analog.is_overloaded = true then
      let sa := { s with
        status.safety.overload_count := s.status.safety.overload_count + 1 }
      if ANALOG_PREAMP_GAIN_MIN < sa.config.preamp_gain then
        { sa with config.preamp_gain := sa.config.preamp_gain * (9 / 10) }
      else sa
    else s
  if s1.config.enable_voltage_clamp = true ∧
      (s1.status.control.cv1 ≥ SAFETY_VOLTAGE_MAX ∨
       s1.status.control.cv2 ≥ SAFETY_VOLTAGE_MAX) then
    { s1 with
        status.safety.clamp_count := s1.status.safety.clamp_count + 1
        status.safety.status := HybridSafetyStatus.voltage_clamp }
  else s1

/-- Filter scratch state threaded through `apply_analog_filter`'s loops:
the per-channel HPF and LPF states and the sample buffer being rewritten. -/
structure FilterState where
  hpf : ℕ → ℝ
  lpf : ℕ → ℝ
  buf : ℕ → ℝ

/-- Body of `apply_analog_filter`'s inner loop for sample `i`, channel `ch`:
the high-pass step as written in the source, `hpf_coeff * (hpf_state + x - x)`,
followed by the low-pass update. -/
def filter_channel_step (hc lc : ℝ) (adc i : ℕ) (st : FilterState) (ch : ℕ) :
    FilterState :=
  let idx := i * adc + ch
  let h := hc * (st.hpf ch + st.buf idx - st.buf idx)
  let buf1 := Function.update st.buf idx h
  let l := st.lpf ch + lc * (buf1 idx - st.lpf ch)
  { hpf := Function.update st.hpf ch h
    lpf := Function.update st.lpf ch l
    buf := Function.update buf1 idx l }

/-- Embeds `apply_analog_filter`: coefficients `1 - exp(-2 pi f / fs)` and
the double loop over frames and channels. -/
def apply_analog_filter (cfg : HybridNodeConfig) (hpf lpf buf : ℕ → ℝ)
    (frames : ℕ) : FilterState :=
  let hc := 1 - Real.exp (-2 * Real.pi * cfg.hpf_cutoff / cfg.sample_rate)
  let lc := 1 - Real.exp (-2 * Real.pi * cfg.lpf_cutoff / cfg.sample_rate)
  (List.range frames).foldl
    (fun st i =>
      (List.range cfg.adc_channels).foldl
        (filter_channel_step hc lc cfg.adc_channels i) st)
    { hpf := hpf, lpf := lpf, buf := buf }

/-- The mono-mixed, zero-padded FFT input window built by
`dsp_process_fft`: sample `n` of the window is channel 0 of frame `n` when
`n` is inside both the cycle and the window, 0 otherwise. -/
def fft_window (buf : ℕ → ℝ) (adc frames : ℕ) : ℕ → ℝ :=
  fun n => if n < frames ∧ n < HYBRID_FFT_SIZE then buf (n * adc) else 0

/-- Real part of DFT bin `k` (reference direct transform of the source). -/
def dft_real (w : ℕ → ℝ) (k : ℕ) : ℝ :=
  ∑ n ∈ Finset.range HYBRID_FFT_SIZE,
    w n * Real.cos (2 * Real.pi * k * n / HYBRID_FFT_SIZE)

/-- Imaginary part of DFT bin `k` (accumulated with `imag -= ...`). -/
def dft_imag (w : ℕ → ℝ) (k : ℕ) : ℝ :=
  -∑ n ∈ Finset.range HYBRID_FFT_SIZE,
    w n * Real.sin (2 * Real.pi * k * n / HYBRID_FFT_SIZE)

/-- Magnitude of bin `k`: `sqrt(real*real + imag*imag)`. -/
def bin_magnitude (w : ℕ → ℝ) (k : ℕ) : ℝ :=
  Real.sqrt (dft_real w k * dft_real w k + dft_imag w k * dft_imag w k)

/-- Frequency of bin `k`: `k * sample_rate / HYBRID_FFT_SIZE`. -/
def bin_freq (sample_rate k : ℕ) : ℝ :=
  (k : ℝ) * (sample_rate : ℝ) / (HYBRID_FFT_SIZE : ℝ)

/-- The weighted frequency sum of `dsp_process_fft`: bins 1..FFT_SIZE/2-1. -/
def weighted_sum (w : ℕ → ℝ) (sample_rate : ℕ) : ℝ :=
  ∑ k ∈ Finset.Ico 1 (HYBRID_FFT_SIZE / 2), bin_freq sample_rate k * bin_magnitude w k

/-- The magnitude sum of `dsp_process_fft`: bins 1..FFT_SIZE/2-1. -/
def magnitude_sum (w : ℕ → ℝ) : ℝ :=
  ∑ k ∈ Finset.Ico 1 (HYBRID_FFT_SIZE / 2), bin_magnitude w k

/-- Zero-crossing count of `dsp_process_fft`: sign changes between
consecutive channel-0 samples. -/
def zero_crossings (buf : ℕ → ℝ) (adc frames : ℕ) : ℕ :=
  ((Finset.Ico 1 frames).filter (fun i =>
      (buf ((i - 1) * adc) ≥ 0 ∧ buf (i * adc) < 0) ∨
      (buf ((i - 1) * adc) < 0 ∧ buf (i * adc) ≥ 0))).card

/-- Embeds `dsp_process_fft`: updates spectral centroid (kept unchanged when
the magnitude sum is not positive), spectral flux against the previous-cycle
centroid, and the zero-crossing rate.  Returns the updated metrics and the
new value of `g_prev_spectral_centroid`. -/
def dsp_process_fft (cfg : HybridNodeConfig) (buf : ℕ → ℝ) (frames : ℕ)
    (dsp : DSPMetrics) (prev : ℝ) : DSPMetrics × ℝ :=
  let w := fft_window buf cfg.adc_channels frames
  let centroid :=
    if magnitude_sum w > 0 then weighted_sum w cfg.sample_rate / magnitude_sum w
    else dsp.spectral_centroid
  let flux := |centroid - prev|
  ({ dsp with
      spectral_centroid := centroid
      spectral_flux := flux
      zero_crossing_rate := (zero_crossings buf cfg.adc_channels frames : ℝ) / (frames : ℝ) },
   centroid)

/-- Embeds `dsp_calculate_ici`: push the current flux into the 32-slot ring
buffer, count entries above the 0.5 threshold, and derive the interval in
ms. -/
def dsp_calculate_ici (s : HybridNodeState) : HybridNodeState :=
  let buf := Function.update s.ici_buffer s.ici_index s.status.dsp.spectral_flux
  let idx := (s.ici_index + 1) % 32
  let peak_count := ((Finset.range 32).filter (fun i => buf i > 0.5)).card
  let interval_samples := peak_count * s.config.buffer_size
  let ici :=
    if 1 < peak_count then
      ((interval_samples : ℝ) / (s.config.sample_rate : ℝ) / (peak_count : ℝ)) * 1000
    else 100
  { s with ici_buffer := buf, ici_index := idx, status.dsp.ici := ici }

/-- Embeds `dsp_calculate_coherence`: `1 - min(flux / 1000, 1)`. -/
def dsp_calculate_coherence (s : HybridNodeState) : HybridNodeState :=
  { s with status.dsp.coherence := 1 - min (s.status.dsp.spectral_flux / 1000) 1 }

/-- Embeds `apply_control_voltage`: depth- and rate-derived control voltages,
optional clamping, output-voltage telemetry and modulation fidelity. -/
def apply_control_voltage (s : HybridNodeState) : HybridNodeState :=
  let depth_factor := s.status.control.phi_depth * s.status.dsp.coherence
  let cv1 := depth_factor * SAFETY_VOLTAGE_MAX * s.config.modulation_depth
  let rate_factor := 1000 / max s.status.dsp.ici 10
  let cv2 := min rate_factor 1 * SAFETY_VOLTAGE_MAX * s.config.modulation_depth
  let cv1c :=
    if s.config.enable_voltage_clamp = true then
      min (max cv1 SAFETY_VOLTAGE_MIN) SAFETY_VOLTAGE_MAX
    else cv1
  let cv2c :=
    if s.config.enable_voltage_clamp = true then
      min (max cv2 SAFETY_VOLTAGE_MIN) SAFETY_VOLTAGE_MAX
    else cv2
  let target_cv1 := s.status.control.phi_depth * SAFETY_VOLTAGE_MAX
  let error := |cv1c - target_cv1| / SAFETY_VOLTAGE_MAX
  { s with
      status.control.cv1 := cv1c
      status.control.cv2 := cv2c
      status.safety.voltage_out :=
        Function.update (Function.update s.status.safety.voltage_out 2 cv1c) 3 cv2c
      status.stats.modulation_fidelity := (1 - error) * 100 }

/-- The output-buffer interleaving at the end of `hybrid_node_process`:
channels 0-1 pass the conditioned audio through, channels 2-3 carry the
control voltages. -/
def write_output (cfg : HybridNodeConfig) (buf : ℕ → ℝ) (cv1 cv2 : ℝ)
    (out : ℕ → ℝ) (frames : ℕ) : ℕ → ℝ :=
  (List.range frames).foldl
    (fun o i =>
      let o1 := Function.update o (i * cfg.dac_channels) (buf (i * cfg.adc_channels))
      let o2 :=
        if 1 < cfg.adc_channels then
          Function.update o1 (i * cfg.dac_channels + 1) (buf (i * cfg.adc_channels + 1))
        else o1
      if 2 < cfg.dac_channels then
        Function.update (Function.update o2 (i * cfg.dac_channels + 2) cv1)
          (i * cfg.dac_channels + 3) cv2
      else o2)
    out

/-- Embeds `hybrid_node_process` (portable build; the microsecond
latency/CPU-load block is TEENSY-only).  The null-buffer guard of the C
signature is not modelled: `input` and `out` are total maps.  Returns the new
state, the written output buffer and the call's result. -/
def hybrid_node_process (s : HybridNodeState) (input out : ℕ → ℝ)
    (frames : ℕ) : HybridNodeState × (ℕ → ℝ) × Bool :=
  if s.running = false then (s, out, false)
  else
    let n := frames * s.config.adc_channels
    let fs :=
      if s.config.enable_analog_filter = true then
        apply_analog_filter s.config s.hpf_state s.lpf_state input frames
      else { hpf := s.hpf_state, lpf := s.lpf_state, buf := input }
    let buf := fs.buf
    let rms_sq := ∑ i ∈ Finset.range n, buf i * buf i
    let peak := (List.range n).foldl (fun p i => max p |buf i|) 0
    let dc_sum := ∑ i ∈ Finset.range n, buf i
    let s1 := { s with
      hpf_state := fs.hpf
      lpf_state := fs.lpf
      status.analog.rms_level := Real.sqrt (rms_sq / (n : ℝ))
      status.analog.peak_level := peak
      status.analog.dc_offset := dc_sum / (n : ℝ)
      status.analog.is_overloaded :=
        if peak > SAFETY_OVERLOAD_THRESH then true else false }
    let s2 := safety_check s1
    let s3 :=
      if s2.config.enable_dsp = true ∧
          s2.status.safety.status = HybridSafetyStatus.ok then
        let r := dsp_process_fft s2.config buf frames s2.status.dsp
          s2.prev_spectral_centroid
        let sa := { s2 with status.dsp := r.1, prev_spectral_centroid := r.2 }
        let sb := if sa.config.enable_ici = true then dsp_calculate_ici sa else sa
        let sc :=
          if sb.config.enable_coherence = true then dsp_calculate_coherence sb
          else sb
        { sc with status.dsp.timestamp_us := 0 }
      else s2
    let s4 :=
      if s3.config.enable_modulation = true then apply_control_voltage s3 else s3
    let outBuf := write_output s4.config buf s4.status.control.cv1
      s4.status.control.cv2 out frames
    ({ s4 with
        status.stats.frames_processed := s4.status.stats.frames_processed + 1 },
     outBuf, true)

/-! ## Concrete states and inputs used by the theorems -/

/-- Example node state with the cycle running, used by witnesses. -/
def runningNodeState : HybridNodeState :=
  { initialNodeState with running := true, status.is_running := true }

/-- Example caller-side calibration structure, used by witnesses. -/
def calEx : CalibrationData := zeroStatus.calibration

/-- Example state for C2: an overloaded cycle with voltage clamping disabled
and the prior safety state Ok. -/
def overloadedNodeState : HybridNodeState :=
  { initialNodeState with status.analog.is_overloaded := true }

/-- Example state for C2: prior safety state VoltageClamp with every
triggering condition clear this cycle. -/
def clampedNodeState : HybridNodeState :=
  { initialNodeState with
      status.safety.status := HybridSafetyStatus.voltage_clamp }

/-- Example state for C5: an overloaded cycle with the preamp gain at 1.05,
just above the floor of 1.0. -/
def gainNodeState : HybridNodeState :=
  { initialNodeState with
      config.preamp_gain := 21 / 20
      status.analog.is_overloaded := true }

/-- Configuration used to exercise the analog filter: one channel at the
default cutoffs (120 Hz / 8 kHz) and 48 kHz sample rate. -/
def filterCfg : HybridNodeConfig :=
  { zeroConfig with
      sample_rate := 48000, adc_channels := 1
      hpf_cutoff := 120, lpf_cutoff := 8000, enable_analog_filter := true }

/-- A non-constant input: a unit step confined to the first sample. -/
def stepInput : ℕ → ℝ := fun idx => if idx = 0 then 1 else 0

/-- Prior DSP metrics with a nonzero centroid left over from earlier
cycles. -/
def dspPrior : DSPMetrics :=
  { ici := 0, coherence := 0, criticality := 0, spectral_centroid := 100
    spectral_flux := 0, zero_crossing_rate := 0, timestamp_us := 0 }

/-- Configuration of the C7 scenario (sample_rate=48000, buffer=512,
channels=2) with DSP and coherence enabled, also used for the C3
counterexample. -/
def cfg7 : HybridNodeConfig :=
  { zeroConfig with
      sample_rate := 48000, buffer_size := 512, adc_channels := 2
      dac_channels := 4, preamp_gain := 10, hpf_cutoff := 120
      lpf_cutoff := 8000, fft_size := 1024, enable_dsp := true
      enable_coherence := true, modulation_depth := 0.8, voltage_max := 5
      mode := HybridNodeMode.hybrid }

/-- The node of the C7 scenario: initialized with `cfg7` and started. -/
def node7 : HybridNodeState :=
  (hybrid_node_start (hybrid_node_init initialNodeState cfg7).1).1

/-- Example sensor state with a pending sample. -/
def phiStateEx : PhiSensorState :=
  { running := true, data_ready := true
    current_data := { raw_adc := fun _ => 2048, voltage := fun _ => 0
                      normalized := fun _ => 0, timestamp_us := 7
                      sample_number := 3 } }

/-- Caller-side sensor data buffer, used to observe non-modification. -/
def phiDataEx : PhiSensorData :=
  { raw_adc := fun _ => 0, voltage := fun _ => 0, normalized := fun _ => 0
    timestamp_us := 0, sample_number := 0 }

end

/-! ## Lemmas -/

section
open Classical

lemma write_metric_slots_of_lt (m : ConsciousnessMetrics) (i : ℕ) (f : ℕ → ℕ)
    (idx : ℕ) (h : idx < i * I2S_CHANNELS + 4) :
    write_metric_slots m i f idx = f idx := by
  unfold write_metric_slots
  have h4 : idx ≠ i * I2S_CHANNELS + 4 := by omega
  have h5 : idx ≠ i * I2S_CHANNELS + 5 := by omega
  have h6 : idx ≠ i * I2S_CHANNELS + 6 := by omega
  have h7 : idx ≠ i * I2S_CHANNELS + 7 := by omega
  simp [h4, h5, h6, h7]

lemma encode_loop_low (m : ConsciousnessMetrics) (f : ℕ → ℕ) (idx : ℕ)
    (hidx : idx < 12) :
    ∀ n, encode_loop m (n + 1) f idx = write_metric_slots m 0 f idx := by
  intro n
  induction n with
  | zero => rfl
  | succ k ih =>
      have hlt : idx < (k + 1) * I2S_CHANNELS + 4 := by
        simp only [I2S_CHANNELS]
        omega
      calc encode_loop m (k + 2) f idx
          = write_metric_slots m (k + 1) (encode_loop m (k + 1) f) idx := rfl
        _ = encode_loop m (k + 1) f idx :=
            write_metric_slots_of_lt m (k + 1) _ idx hlt
        _ = write_metric_slots m 0 f idx := ih

lemma encode_frame_low (frame : ℕ → ℕ) (m : ConsciousnessMetrics) (idx : ℕ)
    (hidx : idx < 12) :
    encode_metrics_to_frame frame m idx = write_metric_slots m 0 frame idx := by
  have h : I2S_BUFFER_SIZE = 511 + 1 := rfl
  unfold encode_metrics_to_frame
  rw [h]
  exact encode_loop_low m frame idx hidx 511

lemma fft_window_zero (adc frames : ℕ) :
    fft_window (fun _ => 0) adc frames = fun _ => 0 := by
  funext n
  simp [fft_window]

lemma dft_real_zero (k : ℕ) : dft_real (fun _ => 0) k = 0 := by
  simp [dft_real]

lemma dft_imag_zero (k : ℕ) : dft_imag (fun _ => 0) k = 0 := by
  simp [dft_imag]

lemma bin_magnitude_zero (k : ℕ) : bin_magnitude (fun _ => 0) k = 0 := by
  simp [bin_magnitude, dft_real_zero, dft_imag_zero]

lemma magnitude_sum_zero_window (adc frames : ℕ) :
    magnitude_sum (fft_window (fun _ => 0) adc frames) = 0 := by
  rw [fft_window_zero]
  simp [magnitude_sum, bin_magnitude_zero]

lemma zero_crossings_zero (adc frames : ℕ) :
    zero_crossings (fun _ => 0) adc frames = 0 := by
  simp [zero_crossings]

/-- On an all-zero window the magnitude sum is 0, so `dsp_process_fft` keeps
the previous spectral centroid, computes the flux against the previous-cycle
centroid, and reports a zero zero-crossing rate. -/
lemma dsp_process_fft_zero (cfg : HybridNodeConfig) (frames : ℕ)
    (dsp : DSPMetrics) (prev : ℝ) :
    dsp_process_fft cfg (fun _ => 0) frames dsp prev =
      ({ dsp with
          spectral_flux := |dsp.spectral_centroid - prev|
          zero_crossing_rate := 0 }, dsp.spectral_centroid) := by
  unfold dsp_process_fft
  simp [magnitude_sum_zero_window, zero_crossings_zero, lt_irrefl]

lemma foldl_max_zero (l : List ℕ) :
    List.foldl (fun p (_ : ℕ) => max p (0 : ℝ)) 0 l = 0 := by
  induction l with
  | nil => rfl
  | cons a t ih =>
      rw [List.foldl_cons, max_self]
      exact ih

/-- A cycle with no overload and voltage clamping disabled leaves the whole
state untouched by `safety_check`. -/
lemma safety_check_noop (s : HybridNodeState)
    (h1 : s.status.analog.is_overloaded = false)
    (h2 : s.config.enable_voltage_clamp = false) :
    safety_check s = s := by
  unfold safety_check
  simp [h1, h2]

end

/-! ## Theorems about the claims -/

section
open Classical

/-- Claim C1: decoding the frame produced by encoding a metrics record, with
the decoder given the same sequence number as the encoder, recovers phi_phase,
phi_depth and coherence bit-for-bit, and recovers the 4th auxiliary slot as
criticality when the sequence is even and as the inter-event interval when it
is odd, each bit-for-bit equal to the encoded value. -/
theorem C1_codec_roundtrip (m m0 : ConsciousnessMetrics) (frame : ℕ → ℕ)
    (hseq : m0.sequence = m.sequence) :
    (decode_metrics_from_frame (encode_metrics_to_frame frame m) m0).phi_phase
        = m.phi_phase ∧
    (decode_metrics_from_frame (encode_metrics_to_frame frame m) m0).phi_depth
        = m.phi_depth ∧
    (decode_metrics_from_frame (encode_metrics_to_frame frame m) m0).coherence
        = m.coherence ∧
    (m.sequence % 2 = 0 →
      (decode_metrics_from_frame (encode_metrics_to_frame frame m) m0).criticality
        = m.criticality) ∧
    (m.sequence % 2 = 1 →
      (decode_metrics_from_frame (encode_metrics_to_frame frame m) m0).ici
        = m.ici) := by
  have h4 := encode_frame_low frame m 4 (by omega)
  have h5 := encode_frame_low frame m 5 (by omega)
  have h6 := encode_frame_low frame m 6 (by omega)
  have h7 := encode_frame_low frame m 7 (by omega)
  have e4 : encode_metrics_to_frame frame m 4 = m.phi_phase := by
    rw [h4]; rfl
  have e5 : encode_metrics_to_frame frame m 5 = m.phi_depth := by
    rw [h5]; rfl
  have e6 : encode_metrics_to_frame frame m 6 = m.coherence := by
    rw [h6]; rfl
  have e7 : encode_metrics_to_frame frame m 7 = extra_slot m := by
    rw [h7]; rfl
  refine ⟨?_, ?_, ?_, ?_, ?_⟩
  · simpa [decode_metrics_from_frame] using e4
  · simpa [decode_metrics_from_frame] using e5
  · simpa [decode_metrics_from_frame] using e6
  · intro heven
    simp [decode_metrics_from_frame, hseq, heven, e7, extra_slot]
  · intro hodd
    have hne : ¬ m.sequence % 2 = 0 := by omega
    simp [decode_metrics_from_frame, hseq, hne, e7, extra_slot]

theorem C1_codec_roundtrip_witness :
    metricsEx0.sequence = metricsEx.sequence ∧
    metricsEx.sequence % 2 = 0 ∧
    (decode_metrics_from_frame (encode_metrics_to_frame (fun _ => 0) metricsEx)
        metricsEx0).criticality = metricsEx.criticality :=
  ⟨rfl, rfl,
    (C1_codec_roundtrip metricsEx metricsEx0 (fun _ => 0) rfl).2.2.2.1 rfl⟩

/-- Claim C2, counterexample: an overloaded cycle leaves the safety state at
Ok instead of moving it to Overload, and a state of VoltageClamp stays
VoltageClamp on a cycle in which every triggering condition is clear, so the
state is not set back to Ok. -/
theorem C2_safety_state_cex :
    overloadedNodeState.status.analog.is_overloaded = true ∧
    (safety_check overloadedNodeState).status.safety.status =
      HybridSafetyStatus.ok ∧
    HybridSafetyStatus.ok ≠ HybridSafetyStatus.adc_overload ∧
    clampedNodeState.status.analog.is_overloaded = false ∧
    clampedNodeState.config.enable_voltage_clamp = false ∧
    (safety_check clampedNodeState).status.safety.status =
      HybridSafetyStatus.voltage_clamp := by
  refine ⟨rfl, ?_, by decide, rfl, rfl, ?_⟩
  · simp [safety_check, overloadedNodeState, initialNodeState, zeroConfig,
      zeroStatus, ANALOG_PREAMP_GAIN_MIN]
  · simp [safety_check, clampedNodeState, initialNodeState, zeroConfig,
      zeroStatus]

/-- Claim C2, amended: the per-cycle safety evaluation sets the state to
VoltageClamp exactly when clamping is enabled and a control voltage has
reached the maximum; in every other case (overload included) the state is
left unchanged, so nothing ever moves it to Overload and nothing reverts it
to Ok. -/
theorem C2_safety_state_amended (s : HybridNodeState) :
    (safety_check s).status.safety.status =
      if s.config.enable_voltage_clamp = true ∧
          (s.status.control.cv1 ≥ SAFETY_VOLTAGE_MAX ∨
           s.status.control.cv2 ≥ SAFETY_VOLTAGE_MAX) then
        HybridSafetyStatus.voltage_clamp
      else s.status.safety.status := by
  unfold safety_check
  by_cases ho : s.status.analog.is_overloaded = true <;>
    by_cases hg : ANALOG_PREAMP_GAIN_MIN < s.config.preamp_gain <;>
    by_cases hc : s.config.enable_voltage_clamp = true ∧
      (s.status.control.cv1 ≥ SAFETY_VOLTAGE_MAX ∨
       s.status.control.cv2 ≥ SAFETY_VOLTAGE_MAX) <;>
    simp [ho, hg, hc]

/-- Claim C3, counterexample: on an all-zero window (magnitude sum 0) the
spectral centroid is not set to 0 — it retains the value 100 left over from
earlier cycles. -/
theorem C3_centroid_cex :
    magnitude_sum (fft_window (fun _ => 0) cfg7.adc_channels 512) = 0 ∧
    (dsp_process_fft cfg7 (fun _ => 0) 512 dspPrior 100).1.spectral_centroid
      = 100 ∧
    (100 : ℝ) ≠ 0 := by
  refine ⟨magnitude_sum_zero_window _ _, ?_, by norm_num⟩
  rw [dsp_process_fft_zero]
  rfl

/-- Claim C3, amended: the spectral centroid equals the magnitude-weighted
mean frequency over the non-DC bins whenever the magnitude sum is positive,
and retains its previous value (rather than becoming 0) whenever the
magnitude sum is 0. -/
theorem C3_centroid_amended (cfg : HybridNodeConfig) (buf : ℕ → ℝ)
    (frames : ℕ) (dsp : DSPMetrics) (prev : ℝ) :
    (0 < magnitude_sum (fft_window buf cfg.adc_channels frames) →
      (dsp_process_fft cfg buf frames dsp prev).1.spectral_centroid =
        weighted_sum (fft_window buf cfg.adc_channels frames) cfg.sample_rate /
          magnitude_sum (fft_window buf cfg.adc_channels frames)) ∧
    (magnitude_sum (fft_window buf cfg.adc_channels frames) = 0 →
      (dsp_process_fft cfg buf frames dsp prev).1.spectral_centroid =
        dsp.spectral_centroid) := by
  unfold dsp_process_fft
  constructor
  · intro h
    simp [h]
  · intro h
    simp [h, lt_irrefl]

theorem C3_centroid_amended_witness :
    (dsp_process_fft cfg7 (fun _ => 0) 512 dspPrior 0).1.spectral_centroid =
      dspPrior.spectral_centroid :=
  (C3_centroid_amended cfg7 (fun _ => 0) 512 dspPrior 0).2
    (by simp [magnitude_sum_zero_window])

/-- Claim C4 (code bug): because the high-pass step computes
`hpf_coeff * (hpf_state + buffer[idx] - buffer[idx])`, the input term cancels,
the high-pass state never leaves 0, and the whole conditioned buffer is
zeroed — here a non-constant (step) input comes out identically 0, so the
stage is not a first-order high-pass filter; it annihilates the signal. -/
theorem C4_hpf_noop :
    stepInput 0 = 1 ∧ stepInput 1 = 0 ∧
    (apply_analog_filter filterCfg (fun _ => 0) (fun _ => 0) stepInput 2).buf 0
      = 0 ∧
    (apply_analog_filter filterCfg (fun _ => 0) (fun _ => 0) stepInput 2).buf 1
      = 0 ∧
    (apply_analog_filter filterCfg (fun _ => 0) (fun _ => 0) stepInput 2).hpf 0
      = 0 := by
  refine ⟨rfl, rfl, ?_, ?_, ?_⟩ <;>
    simp [apply_analog_filter, filter_channel_step, filterCfg, zeroConfig,
      Function.update, stepInput, List.range_succ]

/-- Claim C5, counterexample: an overloaded cycle with gain 1.05 (above
gain_min = 1.0) multiplies the gain by 0.9, producing 0.945 — strictly below
gain_min — so the gain is not "never reduced below gain_min". -/
theorem C5_gain_floor_cex :
    gainNodeState.status.analog.is_overloaded = true ∧
    ANALOG_PREAMP_GAIN_MIN < gainNodeState.config.preamp_gain ∧
    (safety_check gainNodeState).config.preamp_gain = 189 / 200 ∧
    (safety_check gainNodeState).config.preamp_gain < ANALOG_PREAMP_GAIN_MIN := by
  refine ⟨rfl, ?_, ?_, ?_⟩ <;>
    norm_num [safety_check, gainNodeState, initialNodeState, zeroConfig,
      zeroStatus, ANALOG_PREAMP_GAIN_MIN]

/-- Claim C5, amended: every overloaded cycle increments overload_count by
one; if the gain is above gain_min it is multiplied by 0.9 (which may land
strictly below gain_min, as 1.05 does), and once the gain is at or below
gain_min it stays unchanged. -/
theorem C5_overload_gain_amended (s : HybridNodeState)
    (h : s.status.analog.is_overloaded = true) :
    (safety_check s).status.safety.overload_count =
      s.status.safety.overload_count + 1 ∧
    (safety_check s).config.preamp_gain =
      (if ANALOG_PREAMP_GAIN_MIN < s.config.preamp_gain then
        s.config.preamp_gain * (9 / 10)
      else s.config.preamp_gain) := by
  unfold safety_check
  by_cases hg : ANALOG_PREAMP_GAIN_MIN < s.config.preamp_gain <;>
    by_cases hc : s.config.enable_voltage_clamp = true ∧
      (s.status.control.cv1 ≥ SAFETY_VOLTAGE_MAX ∨
       s.status.control.cv2 ≥ SAFETY_VOLTAGE_MAX) <;>
    simp [h, hg, hc]

theorem C5_overload_gain_amended_witness :
    gainNodeState.status.analog.is_overloaded = true ∧
    (safety_check gainNodeState).status.safety.overload_count =
      gainNodeState.status.safety.overload_count + 1 :=
  ⟨rfl, (C5_overload_gain_amended gainNodeState rfl).1⟩

/-- Claim C6: invoking emergency shutdown while the node is running, from any
prior safety state, leaves is_running false, both control voltages at 0 and
the safety state at Fault, and returns true. -/
theorem C6_emergency_shutdown (s : HybridNodeState) (h : s.running = true) :
    (hybrid_node_emergency_shutdown s).1.status.is_running = false ∧
    (hybrid_node_emergency_shutdown s).1.status.control.cv1 = 0 ∧
    (hybrid_node_emergency_shutdown s).1.status.control.cv2 = 0 ∧
    (hybrid_node_emergency_shutdown s).1.status.safety.status =
      HybridSafetyStatus.fault ∧
    (hybrid_node_emergency_shutdown s).2 = true := by
  unfold hybrid_node_emergency_shutdown hybrid_node_stop
  simp [h]

theorem C6_emergency_shutdown_witness :
    runningNodeState.running = true ∧
    (hybrid_node_emergency_shutdown runningNodeState).1.status.is_running = false ∧
    (hybrid_node_emergency_shutdown runningNodeState).1.status.safety.status =
      HybridSafetyStatus.fault :=
  ⟨rfl, (C6_emergency_shutdown runningNodeState rfl).1,
    (C6_emergency_shutdown runningNodeState rfl).2.2.2.1⟩

/-- Claim C7: a freshly started node with sample_rate=48000, buffer=512,
channels=2 processing an all-zero input yields rms 0, peak 0, no overload,
zero spectral flux and coherence 1.0 (and the call succeeds). -/
theorem C7_zero_input_scenario :
    (hybrid_node_process node7 (fun _ => 0) (fun _ => 0) 512).1.status.analog.rms_level
      = 0 ∧
    (hybrid_node_process node7 (fun _ => 0) (fun _ => 0) 512).1.status.analog.peak_level
      = 0 ∧
    (hybrid_node_process node7 (fun _ => 0) (fun _ => 0) 512).1.status.analog.is_overloaded
      = false ∧
    (hybrid_node_process node7 (fun _ => 0) (fun _ => 0) 512).1.status.dsp.spectral_flux
      = 0 ∧
    (hybrid_node_process node7 (fun _ => 0) (fun _ => 0) 512).1.status.dsp.coherence
      = 1 ∧
    (hybrid_node_process node7 (fun _ => 0) (fun _ => 0) 512).2.2 = true := by
  have hrun : node7.running = true := rfl
  have hfilt : node7.config.enable_analog_filter = false := rfl
  have hdsp : node7.config.enable_dsp = true := rfl
  have hici : node7.config.enable_ici = false := rfl
  have hcoh : node7.config.enable_coherence = true := rfl
  have hmod : node7.config.enable_modulation = false := rfl
  have hclamp : node7.config.enable_voltage_clamp = false := rfl
  have hsafe : node7.status.safety.status = HybridSafetyStatus.ok := rfl
  have hcent : node7.status.dsp.spectral_centroid = 0 := rfl
  have hprev : node7.prev_spectral_centroid = 0 := rfl
  have hth : ¬((0 : ℝ) > SAFETY_OVERLOAD_THRESH) := by
    norm_num [SAFETY_OVERLOAD_THRESH]
  have hmin : min ((0 : ℝ)) 1 = 0 := by norm_num
  refine ⟨?_, ?_, ?_, ?_, ?_, ?_⟩ <;>
    simp [hybrid_node_process, hrun, hfilt, hdsp, hici, hcoh, hmod, hclamp,
      hsafe, hcent, hprev, hth, hmin, safety_check_noop, dsp_process_fft_zero,
      dsp_calculate_coherence, foldl_max_zero]

/-- Claim C8: `set_preamp_gain(g)` succeeds iff `gain_min ≤ g ≤ gain_max`
(1.0 and 40.0), and a rejected value changes nothing. -/
theorem C8_set_preamp_gain (s : HybridNodeState) (g : ℚ) :
    ((hybrid_node_set_preamp_gain s g).2 = true ↔
      ANALOG_PREAMP_GAIN_MIN ≤ g ∧ g ≤ ANALOG_PREAMP_GAIN_MAX) ∧
    ((hybrid_node_set_preamp_gain s g).2 = false →
      hybrid_node_set_preamp_gain s g = (s, false)) := by
  unfold hybrid_node_set_preamp_gain
  by_cases hc : g < ANALOG_PREAMP_GAIN_MIN ∨ g > ANALOG_PREAMP_GAIN_MAX
  · rw [if_pos hc]
    have hni : ¬(ANALOG_PREAMP_GAIN_MIN ≤ g ∧ g ≤ ANALOG_PREAMP_GAIN_MAX) := by
      rcases hc with h | h
      · exact fun hh => absurd hh.1 (not_le.mpr h)
      · exact fun hh => absurd hh.2 (not_le.mpr h)
    simp [hni]
  · rw [if_neg hc]
    push_neg at hc
    simp [hc.1, hc.2]

theorem C8_set_preamp_gain_witness :
    (hybrid_node_set_preamp_gain initialNodeState 50).2 = false ∧
    hybrid_node_set_preamp_gain initialNodeState 50 = (initialNodeState, false) := by
  have h : (hybrid_node_set_preamp_gain initialNodeState 50).2 = false := by decide
  exact ⟨h, (C8_set_preamp_gain initialNodeState 50).2 h⟩

/-- Claim C9: `start()` while running returns false and is a no-op, `stop()`
while stopped returns false (and is a no-op), `calibrate()` while running
returns false. -/
theorem C9_lifecycle_guards (s : HybridNodeState) (cal0 : CalibrationData)
    (now : ℕ) :
    (s.running = true → hybrid_node_start s = (s, false)) ∧
    (s.running = false → hybrid_node_stop s = (s, false)) ∧
    (s.running = true → (hybrid_node_calibrate s cal0 now).2.2 = false) := by
  refine ⟨fun h => ?_, fun h => ?_, fun h => ?_⟩
  · unfold hybrid_node_start
    rw [if_pos (Or.inr h)]
  · unfold hybrid_node_stop
    rw [if_pos h]
  · unfold hybrid_node_calibrate
    rw [if_pos h]

theorem C9_lifecycle_guards_witness :
    hybrid_node_start runningNodeState = (runningNodeState, false) ∧
    hybrid_node_stop initialNodeState = (initialNodeState, false) ∧
    (hybrid_node_calibrate runningNodeState calEx 0).2.2 = false :=
  ⟨(C9_lifecycle_guards runningNodeState calEx 0).1 rfl,
   (C9_lifecycle_guards initialNodeState calEx 0).2.1 rfl,
   (C9_lifecycle_guards runningNodeState calEx 0).2.2 rfl⟩

/-- Claim C10: `phi_sensor_read` with a non-null pointer succeeds iff the
sensor is running and a sample is pending; success consumes the pending
sample, so an immediate second read fails and leaves the caller's structure
unmodified. -/
theorem C10_phi_sensor_read (s : PhiSensorState) (d d2 : PhiSensorData) :
    ((phi_sensor_read s d).2.2 = true ↔
      s.running = true ∧ s.data_ready = true) ∧
    ((phi_sensor_read s d).2.2 = true →
      (phi_sensor_read s d).1.data_ready = false ∧
      (phi_sensor_read (phi_sensor_read s d).1 d2).2.2 = false ∧
      (phi_sensor_read (phi_sensor_read s d).1 d2).2.1 = d2) := by
  unfold phi_sensor_read
  by_cases hr : s.running = false
  · simp [hr]
  · have hr' : s.running = true := by simpa using hr
    by_cases hd : s.data_ready = false
    · simp [hr', hd]
    · have hd' : s.data_ready = true := by simpa using hd
      simp [hr', hd']

theorem C10_phi_sensor_read_witness :
    (phi_sensor_read phiStateEx phiDataEx).2.2 = true ∧
    (phi_sensor_read (phi_sensor_read phiStateEx phiDataEx).1 phiDataEx).2.2
      = false ∧
    (phi_sensor_read (phi_sensor_read phiStateEx phiDataEx).1 phiDataEx).2.1
      = phiDataEx := by
  have h : (phi_sensor_read phiStateEx phiDataEx).2.2 = true := rfl
  exact ⟨h, ((C10_phi_sensor_read phiStateEx phiDataEx phiDataEx).2 h).2.1,
    ((C10_phi_sensor_read phiStateEx phiDataEx phiDataEx).2 h).2.2⟩

end

end Chrocog
